import Mathlib

/-!
Verification development for the FitTrack text-to-object pipeline
(`fit_track_bot/parser.py` and `fit_track_bot/models.py`).

The Python source is shallowly embedded:
* Python `int` is `Int`; Python `float` is modelled as an exact rational
  (`ℚ`) — every numeric literal reachable from the claims is exactly
  representable in binary64, so no rounding behaviour is lost on them.
* Python exceptions become `Except` values.  `ParseError` is the
  structured type `PErr`; `ValidationError` is `VErr`; the union that
  `create_object_from_string` can surface is `FitError`.
* Regular-expression checks (`re.match` of the five anchored patterns)
  are expressed as decidable character-shape predicates; tokens are
  assumed newline-free, so `$` is the absolute end of the string.
* `datetime.now().date()` is an oracle: functions that need it take an
  explicit `today : PyDate` argument.
* Python's Unicode `str.lower` is modelled on the repertoire the
  program actually uses: ASCII plus the Cyrillic block (А..Я, Ё).
-/

/-- Calendar date as Python's `datetime.date` stores it. -/
structure PyDate where
  year : Nat
  month : Nat
  day : Nat
deriving DecidableEq

/-- Leap-year rule used by `datetime.date`. -/
def isLeapYear (y : Nat) : Bool :=
  y % 4 = 0 && (y % 100 ≠ 0 || y % 400 = 0)

/-- Days in a month, as `datetime.date` validates them. -/
def daysInMonth (y m : Nat) : Nat :=
  if m = 1 then 31
  else if m = 2 then (if isLeapYear y then 29 else 28)
  else if m = 3 then 31
  else if m = 4 then 30
  else if m = 5 then 31
  else if m = 6 then 30
  else if m = 7 then 31
  else if m = 8 then 31
  else if m = 9 then 30
  else if m = 10 then 31
  else if m = 11 then 30
  else if m = 12 then 31
  else 0

/-- `datetime.date(y, m, d)` accepts exactly these triples
(`MINYEAR = 1`, `MAXYEAR = 9999`). -/
def isValidDate (y m d : Nat) : Bool :=
  1 ≤ y && y ≤ 9999 && 1 ≤ m && m ≤ 12 && 1 ≤ d && d ≤ daysInMonth y m

/-- Python's `date` comparison is lexicographic on (year, month, day). -/
def PyDate.gt (a b : PyDate) : Bool :=
  (a.year > b.year) ||
  (a.year = b.year && a.month > b.month) ||
  (a.year = b.year && a.month = b.month && a.day > b.day)

/-- Runtime value produced by `ObjectParser.parse_value`.  Python keeps
quoted text and bare text both as `str`, so both map to `vstr`. -/
inductive Value where
  | vdate (d : PyDate)
  | vtime (hour minute : Nat)
  | vstr (s : String)
  | vint (n : Int)
  | vfloat (q : ℚ)
deriving DecidableEq

/-- The Python runtime types that the schema table distinguishes via
`isinstance`. -/
inductive PyType where
  | tstr | tint | tfloat | tdate | ttime
deriving DecidableEq

/-- `type(value)` as `isinstance` sees it for parsed values. -/
def Value.typeOf : Value → PyType
  | .vdate _ => .tdate
  | .vtime _ _ => .ttime
  | .vstr _ => .tstr
  | .vint _ => .tint
  | .vfloat _ => .tfloat

/-- Structured contents of the `ParseError` exceptions raised by
`parser.py`, one constructor per distinct raise site / message shape. -/
inductive PErr where
  | emptyInput
  | unclosedQuotes
  | tooFewTokens
  | evenTokenCount
  | unpairedKey (rawKey : String)
  | duplicateProp (rawKey canonKey : String)
  | badDate (s : String)
  | badTime (s : String)
  | schemaErr (objType : String) (missing : List String)
      (mismatches : List (String × PyType × PyType))
  | unknownKind (kind : String)
  | constructorTypeError (objType : String)
deriving DecidableEq

/-- Structured contents of `models.ValidationError`: which record's
which field failed its range/enumeration check. -/
inductive VErr where
  | invalidValue (record fieldName : String)
deriving DecidableEq

/-- Errors surfaced by `create_object_from_string`: either a
`ParseError` or a `ValidationError`. -/
inductive FitError where
  | parse (e : PErr)
  | validation (e : VErr)
deriving DecidableEq

/-- Equality of `Except` results is decidable when both components'
equality is; used to evaluate the pipeline on concrete inputs. -/
instance {ε α : Type} [DecidableEq ε] [DecidableEq α] :
    DecidableEq (Except ε α) := fun a b =>
  match a, b with
  | .ok x, .ok y =>
    if h : x = y then isTrue (by rw [h])
    else isFalse (fun hh => h (by cases hh; rfl))
  | .error x, .error y =>
    if h : x = y then isTrue (by rw [h])
    else isFalse (fun hh => h (by cases hh; rfl))
  | .ok _, .error _ => isFalse (fun hh => by cases hh)
  | .error _, .ok _ => isFalse (fun hh => by cases hh)

/-- Python `str.lower` restricted to the repertoire the program uses:
ASCII letters and the Cyrillic block (`А`..`Я` is U+0410..U+042F,
lowercase is +0x20; `Ё` U+0401 lowers to `ё` U+0451). -/
def pyLowerChar (c : Char) : Char :=
  let n := c.toNat
  if 65 ≤ n ∧ n ≤ 90 then Char.ofNat (n + 32)
  else if 0x410 ≤ n ∧ n ≤ 0x42F then Char.ofNat (n + 32)
  else if n = 0x401 then Char.ofNat 0x451
  else c

/-- Python `s.lower()` on a string. -/
def pyLower (s : String) : String :=
  String.mk (s.toList.map pyLowerChar)

/-- Python `s.replace(' ', '_')`. -/
def replaceSpaces (s : String) : String :=
  String.mk (s.toList.map (fun c => if c = ' ' then '_' else c))

/-- `ObjectParser.RUSSIAN_TO_ENGLISH_MAP`.  The source dict literal
lists the key `вес` twice (once under UserProfile, once under
Exercise), both mapping to `weight`; dict semantics keep one entry. -/
def RUSSIAN_TO_ENGLISH_MAP : List (String × String) :=
  [("пол", "gender"),
   ("гендер", "gender"),
   ("возраст", "age"),
   ("рост", "height"),
   ("вес", "weight"),
   ("цель", "goal"),
   ("тип_активности", "activity_type"),
   ("активность", "activity_type"),
   ("уровень_активности", "activity_type"),
   ("название", "name"),
   ("имя", "name"),
   ("подходы", "sets"),
   ("повторения", "reps_per_set"),
   ("повторы", "reps_per_set"),
   ("повторений", "reps_per_set"),
   ("масса", "weight"),
   ("примечания", "notes"),
   ("дата", "date"),
   ("длительность", "duration"),
   ("продолжительность", "duration"),
   ("упражнения", "exercises"),
   ("комментарии", "notes"),
   ("тип_цели", "goal_type"),
   ("калории", "calories"),
   ("белок", "protein"),
   ("протеин", "protein"),
   ("жиры", "fat"),
   ("углеводы", "carbs"),
   ("карбс", "carbs")]

/-- `ObjectParser._translate_key`: lower-case, replace spaces with
underscores, look the normalized form up; on a miss return the
ORIGINAL `key` argument (not the normalized form). -/
def _translate_key (key : String) : String :=
  let normalized_key := replaceSpaces (pyLower key)
  match RUSSIAN_TO_ENGLISH_MAP.lookup normalized_key with
  | some v => v
  | none => key

/-- `^\d{4}\.\d{2}\.\d{2}$` on a newline-free token. -/
def DATE_PATTERN (s : String) : Bool :=
  match s.toList with
  | [a, b, c, d, e, f, g, h, i, j] =>
    a.isDigit && b.isDigit && c.isDigit && d.isDigit && e = '.' &&
    f.isDigit && g.isDigit && h = '.' && i.isDigit && j.isDigit
  | _ => false

/-- `^\d{2}:\d{2}$`. -/
def TIME_PATTERN (s : String) : Bool :=
  match s.toList with
  | [a, b, c, d, e] => a.isDigit && b.isDigit && c = ':' && d.isDigit && e.isDigit
  | _ => false

/-- `^-?\d+$`. -/
def INT_PATTERN (s : String) : Bool :=
  match s.toList with
  | [] => false
  | '-' :: rest => rest ≠ [] && rest.all Char.isDigit
  | l => l.all Char.isDigit

/-- Character shape of `-?\d+\.\d+`: digits, one dot, digits. -/
def floatShape : List Char → Bool
  | [] => false
  | l =>
    match l.span Char.isDigit with
    | (intPart, '.' :: fracPart) =>
      intPart ≠ [] && fracPart ≠ [] && fracPart.all Char.isDigit
    | _ => false

/-- `^-?\d+\.\d+$`. -/
def FLOAT_PATTERN (s : String) : Bool :=
  match s.toList with
  | '-' :: rest => floatShape rest
  | l => floatShape l

/-- `ObjectParser._is_quoted_string`: `^".*"$` — first and last
character are `"` with at least two characters; `.` does not match a
newline. -/
def _is_quoted_string (s : String) : Bool :=
  match s.toList with
  | '"' :: (c :: rest) =>
    ((c :: rest).dropLast.all (fun ch => ch ≠ '\n')) &&
    (c :: rest).getLast (by simp) = '"'
  | _ => false

/-- `ObjectParser._parse_quoted_string`: strip the outer quotes. -/
def _parse_quoted_string (s : String) : String :=
  String.mk (s.toList.dropLast.drop 1)

/-- Digits to the natural number they denote (`int` of a digit run). -/
def digitsToNat (l : List Char) : Nat :=
  l.foldl (fun acc c => acc * 10 + (c.toNat - 48)) 0

/-- Python `int(s)` on a token matching `INT_PATTERN`. -/
def parseIntToken (s : String) : Int :=
  match s.toList with
  | '-' :: rest => - (digitsToNat rest : Int)
  | l => (digitsToNat l : Int)

/-- Python `float(s)` on a token matching `FLOAT_PATTERN`, as the
exact rational value of the decimal literal `ip.fp`, i.e.
`(ip·10^|fp| + fp) / 10^|fp|`. -/
def parseFloatToken (s : String) : ℚ :=
  let core := fun (l : List Char) =>
    match l.span Char.isDigit with
    | (intPart, _ :: fracPart) =>
      mkRat (digitsToNat intPart * 10 ^ fracPart.length +
        digitsToNat fracPart) (10 ^ fracPart.length)
    | (intPart, []) => (digitsToNat intPart : ℚ)
  match s.toList with
  | '-' :: rest => - core rest
  | l => core l

/-- `ObjectParser._parse_date`: split on `.`, convert the three parts,
build `datetime.date` (which validates the calendar triple). -/
def _parse_date (s : String) : Except PErr PyDate :=
  match (s.toList.splitOn '.').map digitsToNat with
  | [y, m, d] =>
    if isValidDate y m d then .ok ⟨y, m, d⟩ else .error (.badDate s)
  | _ => .error (.badDate s)

/-- `ObjectParser._parse_time`: split on `:`, range-check hour and
minute. -/
def _parse_time (s : String) : Except PErr (Nat × Nat) :=
  match (s.toList.splitOn ':').map digitsToNat with
  | [h, m] =>
    if h ≤ 23 && m ≤ 59 then .ok (h, m) else .error (.badTime s)
  | _ => .error (.badTime s)

/-- `ObjectParser.parse_value`: ordered pattern checks, first match
wins; the final branch returns the token itself as bare text. -/
def parse_value (value_str : String) : Except PErr Value :=
  if DATE_PATTERN value_str then
    match _parse_date value_str with
    | .ok d => .ok (.vdate d)
    | .error e => .error e
  else if TIME_PATTERN value_str then
    match _parse_time value_str with
    | .ok (h, m) => .ok (.vtime h m)
    | .error e => .error e
  else if _is_quoted_string value_str then
    .ok (.vstr (_parse_quoted_string value_str))
  else if INT_PATTERN value_str then
    .ok (.vint (parseIntToken value_str))
  else if FLOAT_PATTERN value_str then
    .ok (.vfloat (parseFloatToken value_str))
  else
    .ok (.vstr value_str)

/-- Loop body of `ObjectParser._tokenize_string`: `cur` is the token
being accumulated, `inQ` the in-quotes flag, `acc` the finished
tokens. -/
def tokenizeAux : List Char → List Char → Bool → List (List Char) →
    Except PErr (List (List Char))
  | [], cur, inQ, acc =>
    if inQ then .error .unclosedQuotes
    else .ok (acc ++ (if cur = [] then [] else [cur]))
  | c :: rest, cur, inQ, acc =>
    if c = '"' then tokenizeAux rest (cur ++ [c]) (!inQ) acc
    else if c = ' ' && !inQ then
      tokenizeAux rest [] inQ (acc ++ (if cur = [] then [] else [cur]))
    else tokenizeAux rest (cur ++ [c]) inQ acc

/-- `ObjectParser._tokenize_string`: reject all-whitespace input, then
scan characters, toggling the quote state on `"` and splitting on
spaces outside quotes. -/
def _tokenize_string (object_str : String) : Except PErr (List String) :=
  if object_str.toList.all Char.isWhitespace then .error .emptyInput
  else
    match tokenizeAux object_str.toList [] false [] with
    | .ok ts => .ok (ts.map String.mk)
    | .error e => .error e

/-- Result of `ObjectParser.parse_object`: the object-kind token plus
the insertion-ordered property mapping (canonical key → value). -/
structure Descriptor where
  type : String
  properties : List (String × Value)
deriving DecidableEq

/-- The key/value loop of `parse_object`, written over the token
suffix `tokens[i:]`: the loop `for i in range(1, len(tokens), 2)`
visits the suffix two tokens at a time, the loop exit `i ≥ len` is the
`[]` case, and the in-loop unpaired-key guard `i + 1 >= len(tokens)`
is the singleton case.  The duplicate check runs before the value is
parsed, exactly as in the source. -/
def processPairs : List String → List (String × Value) →
    Except PErr (List (String × Value))
  | [], props => .ok props
  | [k], _ => .error (.unpairedKey k)
  | k :: value_str :: rest, props =>
    let key := _translate_key k
    if (props.lookup key).isSome then
      .error (.duplicateProp k key)
    else
      match parse_value value_str with
      | .error e => .error e
      | .ok v => processPairs rest (props ++ [(key, v)])

/-- The `required_properties` schema table inside `parse_object`. -/
def required_properties : List (String × List (String × PyType)) :=
  [("UserProfile",
    [("gender", .tstr), ("age", .tint), ("height", .tfloat),
     ("weight", .tfloat), ("goal", .tstr), ("activity_type", .tstr)]),
   ("Exercise",
    [("name", .tstr), ("sets", .tint), ("reps_per_set", .tint),
     ("weight", .tfloat)]),
   ("Workout",
    [("date", .tdate), ("duration", .ttime)]),
   ("NutritionGoal",
    [("goal_type", .tstr), ("calories", .tfloat), ("protein", .tfloat),
     ("fat", .tfloat), ("carbs", .tfloat)])]

/-- The scanning loop of `validate_required_properties`: walk the
required (key, type) pairs, appending to the `missing_properties` and
`type_errors` accumulators in source order. -/
def scanRequired (props : List (String × Value))
    (required : List (String × PyType)) :
    List String × List (String × PyType × PyType) :=
  required.foldl
    (fun acc kv =>
      match props.lookup kv.1 with
      | none => (acc.1 ++ [kv.1], acc.2)
      | some v =>
        if v.typeOf ≠ kv.2 then (acc.1, acc.2 ++ [(kv.1, kv.2, v.typeOf)])
        else acc)
    ([], [])

/-- `ObjectParser.validate_required_properties`: collect every missing
key and every type mismatch, then raise a single batched error when
either list is non-empty. -/
def validate_required_properties (object_type : String)
    (props : List (String × Value)) (required : List (String × PyType)) :
    Except PErr Unit :=
  let scanned := scanRequired props required
  if scanned.1 = [] ∧ scanned.2 = [] then .ok ()
  else .error (.schemaErr object_type scanned.1 scanned.2)

/-- `ObjectParser.parse_object`: tokenize, enforce the minimum-token
and odd-parity checks, run the key/value loop from index 1, then
schema-check only if the kind has a `required_properties` entry. -/
def parse_object (object_str : String) : Except PErr Descriptor :=
  match _tokenize_string object_str with
  | .error e => .error e
  | .ok tokens =>
    if tokens.length < 3 then .error .tooFewTokens
    else if tokens.length % 2 = 0 then .error .evenTokenCount
    else
      let object_type := tokens.headD ""
      match processPairs (tokens.drop 1) [] with
      | .error e => .error e
      | .ok props =>
        match required_properties.lookup object_type with
        | some req =>
          match validate_required_properties object_type props req with
          | .error e => .error e
          | .ok _ => .ok ⟨object_type, props⟩
        | none => .ok ⟨object_type, props⟩

/-- Extract a Python `str` from a parsed value. -/
def Value.asStr : Value → Option String
  | .vstr s => some s
  | _ => none

/-- Extract a Python `int` from a parsed value. -/
def Value.asInt : Value → Option Int
  | .vint n => some n
  | _ => none

/-- Extract a numeric value where the validators only compare it
numerically (Python range checks work on both `int` and `float`). -/
def Value.asNum : Value → Option ℚ
  | .vfloat q => some q
  | .vint n => some (n : ℚ)
  | _ => none

/-- Extract a `datetime.date`. -/
def Value.asDate : Value → Option PyDate
  | .vdate d => some d
  | _ => none

/-- Extract a `datetime.time`. -/
def Value.asTime : Value → Option (Nat × Nat)
  | .vtime h m => some (h, m)
  | _ => none

/-- Python keyword-argument binding for `cls(**properties)`: every
provided key must name a declared field and every field without a
default must be provided, else `TypeError`. -/
def kwargsBindable (props : List (String × Value))
    (fields requiredFields : List String) : Bool :=
  props.all (fun kv => fields.contains kv.1) &&
  requiredFields.all (fun f => (props.lookup f).isSome)

/-- `models.UserProfile`.  The first dataclass field is named `пол` in
the source (not `gender`). -/
structure UserProfile where
  «пол» : String
  age : Int
  height : ℚ
  weight : ℚ
  goal : String
  activity_type : String
deriving DecidableEq

/-- `UserProfile.__post_init__`: the six `_validate_*` checks in
source order; the first failure raises `ValidationError`. -/
def UserProfile.postInit (p : UserProfile) : Except FitError Unit :=
  if ¬ ["мужской", "женский"].contains (pyLower p.«пол») then
    .error (.validation (.invalidValue "UserProfile" "пол"))
  else if ¬ (1 ≤ p.age ∧ p.age ≤ 120) then
    .error (.validation (.invalidValue "UserProfile" "age"))
  else if ¬ (50 ≤ p.height ∧ p.height ≤ 250) then
    .error (.validation (.invalidValue "UserProfile" "height"))
  else if ¬ (20 ≤ p.weight ∧ p.weight ≤ 300) then
    .error (.validation (.invalidValue "UserProfile" "weight"))
  else if ¬ ["похудение", "набор массы", "поддержание формы",
      "рельеф"].contains (pyLower p.goal) then
    .error (.validation (.invalidValue "UserProfile" "goal"))
  else if ¬ ["низкая", "средняя", "высокая",
      "очень высокая"].contains (pyLower p.activity_type) then
    .error (.validation (.invalidValue "UserProfile" "activity_type"))
  else .ok ()

/-- `UserProfile(**properties)` + `__post_init__`.  A field bound to a
value of the wrong runtime type is modelled as the constructor-level
`TypeError` that the factory converts to `ParseError` (reachable only
when schema validation was bypassed). -/
def UserProfile.fromKwargs (props : List (String × Value)) :
    Except FitError UserProfile :=
  if ¬ kwargsBindable props
      ["пол", "age", "height", "weight", "goal", "activity_type"]
      ["пол", "age", "height", "weight", "goal", "activity_type"] then
    .error (.parse (.constructorTypeError "UserProfile"))
  else
    match (props.lookup "пол").bind Value.asStr,
        (props.lookup "age").bind Value.asInt,
        (props.lookup "height").bind Value.asNum,
        (props.lookup "weight").bind Value.asNum,
        (props.lookup "goal").bind Value.asStr,
        (props.lookup "activity_type").bind Value.asStr with
    | some g, some a, some h, some w, some gl, some act =>
      let p : UserProfile := ⟨g, a, h, w, gl, act⟩
      match p.postInit with
      | .ok _ => .ok p
      | .error e => .error e
    | _, _, _, _, _, _ => .error (.parse (.constructorTypeError "UserProfile"))

/-- `UserProfile.calculate_bmi`: weight / (height in meters)². -/
def UserProfile.calculate_bmi (p : UserProfile) : ℚ :=
  p.weight / (p.height / 100) ^ 2

/-- `UserProfile.get_bmi_category`: the four BMI bands. -/
def UserProfile.get_bmi_category (p : UserProfile) : String :=
  let bmi := p.calculate_bmi
  if bmi < mkRat 37 2 then "Недостаточный вес"
  else if bmi < 25 then "Нормальный вес"
  else if bmi < 30 then "Избыточный вес"
  else "Ожирение"

/-- `models.Exercise`. -/
structure Exercise where
  name : String
  sets : Int
  reps_per_set : Int
  weight : ℚ
  notes : String
deriving DecidableEq

/-- `Exercise.__post_init__`: sets, reps, weight range checks in
source order. -/
def Exercise.postInit (e : Exercise) : Except FitError Unit :=
  if ¬ (1 ≤ e.sets ∧ e.sets ≤ 20) then
    .error (.validation (.invalidValue "Exercise" "sets"))
  else if ¬ (1 ≤ e.reps_per_set ∧ e.reps_per_set ≤ 100) then
    .error (.validation (.invalidValue "Exercise" "reps_per_set"))
  else if ¬ (0 ≤ e.weight ∧ e.weight ≤ 1000) then
    .error (.validation (.invalidValue "Exercise" "weight"))
  else .ok ()

/-- `Exercise(**properties)` + `__post_init__`; `notes` defaults to
the empty string. -/
def Exercise.fromKwargs (props : List (String × Value)) :
    Except FitError Exercise :=
  if ¬ kwargsBindable props
      ["name", "sets", "reps_per_set", "weight", "notes"]
      ["name", "sets", "reps_per_set", "weight"] then
    .error (.parse (.constructorTypeError "Exercise"))
  else
    match (props.lookup "name").bind Value.asStr,
        (props.lookup "sets").bind Value.asInt,
        (props.lookup "reps_per_set").bind Value.asInt,
        (props.lookup "weight").bind Value.asNum,
        (match props.lookup "notes" with
         | none => some ""
         | some v => v.asStr) with
    | some nm, some st, some rp, some w, some nt =>
      let e : Exercise := ⟨nm, st, rp, w, nt⟩
      match e.postInit with
      | .ok _ => .ok e
      | .error er => .error er
    | _, _, _, _, _ => .error (.parse (.constructorTypeError "Exercise"))

/-- `Exercise.calculate_volume`: sets × reps_per_set × weight. -/
def Exercise.calculate_volume (e : Exercise) : ℚ :=
  (e.sets : ℚ) * (e.reps_per_set : ℚ) * e.weight

/-- `models.Workout`. -/
structure Workout where
  date : PyDate
  duration : Nat × Nat
  exercises : List Exercise
  notes : String
deriving DecidableEq

/-- `Workout.__post_init__`: the date must not lie after `today`
(`datetime.now().date()` at construction time). -/
def Workout.postInit (today : PyDate) (w : Workout) : Except FitError Unit :=
  if w.date.gt today then
    .error (.validation (.invalidValue "Workout" "date"))
  else .ok ()

/-- `Workout(**properties)` + `__post_init__`; `exercises` defaults to
`[]` and `notes` to the empty string.  A parsed `Value` never converts
to a list of `Exercise`, so a supplied `exercises` key is modelled as
a constructor-level error. -/
def Workout.fromKwargs (today : PyDate) (props : List (String × Value)) :
    Except FitError Workout :=
  if ¬ kwargsBindable props
      ["date", "duration", "exercises", "notes"]
      ["date", "duration"] then
    .error (.parse (.constructorTypeError "Workout"))
  else if (props.lookup "exercises").isSome then
    .error (.parse (.constructorTypeError "Workout"))
  else
    match (props.lookup "date").bind Value.asDate,
        (props.lookup "duration").bind Value.asTime,
        (match props.lookup "notes" with
         | none => some ""
         | some v => v.asStr) with
    | some d, some du, some nt =>
      let w : Workout := ⟨d, du, [], nt⟩
      match w.postInit today with
      | .ok _ => .ok w
      | .error er => .error er
    | _, _, _ => .error (.parse (.constructorTypeError "Workout"))

/-- `models.NutritionGoal`. -/
structure NutritionGoal where
  goal_type : String
  calories : ℚ
  protein : ℚ
  fat : ℚ
  carbs : ℚ
deriving DecidableEq

/-- `NutritionGoal.__post_init__` checks in source order. -/
def NutritionGoal.postInit (n : NutritionGoal) : Except FitError Unit :=
  if ¬ ["похудение", "поддержание", "набор массы"].contains
      (pyLower n.goal_type) then
    .error (.validation (.invalidValue "NutritionGoal" "goal_type"))
  else if ¬ (500 ≤ n.calories ∧ n.calories ≤ 5000) then
    .error (.validation (.invalidValue "NutritionGoal" "calories"))
  else if ¬ (0 ≤ n.protein ∧ n.protein ≤ 500) then
    .error (.validation (.invalidValue "NutritionGoal" "protein"))
  else if ¬ (0 ≤ n.fat ∧ n.fat ≤ 200) then
    .error (.validation (.invalidValue "NutritionGoal" "fat"))
  else if ¬ (0 ≤ n.carbs ∧ n.carbs ≤ 1000) then
    .error (.validation (.invalidValue "NutritionGoal" "carbs"))
  else .ok ()

/-- `NutritionGoal(**properties)` + `__post_init__`. -/
def NutritionGoal.fromKwargs (props : List (String × Value)) :
    Except FitError NutritionGoal :=
  if ¬ kwargsBindable props
      ["goal_type", "calories", "protein", "fat", "carbs"]
      ["goal_type", "calories", "protein", "fat", "carbs"] then
    .error (.parse (.constructorTypeError "NutritionGoal"))
  else
    match (props.lookup "goal_type").bind Value.asStr,
        (props.lookup "calories").bind Value.asNum,
        (props.lookup "protein").bind Value.asNum,
        (props.lookup "fat").bind Value.asNum,
        (props.lookup "carbs").bind Value.asNum with
    | some g, some c, some p, some f, some cb =>
      let n : NutritionGoal := ⟨g, c, p, f, cb⟩
      match n.postInit with
      | .ok _ => .ok n
      | .error er => .error er
    | _, _, _, _, _ => .error (.parse (.constructorTypeError "NutritionGoal"))

/-- The closed set of domain records produced by the factory. -/
inductive DomainRecord where
  | profile (p : UserProfile)
  | exercise (e : Exercise)
  | workout (w : Workout)
  | nutrition (n : NutritionGoal)
deriving DecidableEq

/-- Keys of `ObjectFactory.OBJECT_CLASSES`. -/
def OBJECT_CLASSES : List String :=
  ["UserProfile", "Exercise", "Workout", "NutritionGoal"]

/-- `ObjectFactory.create_object`: reject unknown kinds, then invoke
the matching record constructor; `ValidationError` passes through and
constructor `TypeError` becomes `ParseError`. -/
def create_object (today : PyDate) (d : Descriptor) :
    Except FitError DomainRecord :=
  if ¬ OBJECT_CLASSES.contains d.type then
    .error (.parse (.unknownKind d.type))
  else if d.type = "UserProfile" then
    (UserProfile.fromKwargs d.properties).map .profile
  else if d.type = "Exercise" then
    (Exercise.fromKwargs d.properties).map .exercise
  else if d.type = "Workout" then
    (Workout.fromKwargs today d.properties).map .workout
  else
    (NutritionGoal.fromKwargs d.properties).map .nutrition

/-- `create_object_from_string`: parse, then construct. -/
def create_object_from_string (today : PyDate) (object_str : String) :
    Except FitError DomainRecord :=
  match parse_object object_str with
  | .error e => .error (.parse e)
  | .ok d => create_object today d

/-- The key tokens of the key/value suffix of a token list (positions
0, 2, 4, … of `tokens[1:]`). -/
def pairKeys : List String → List String
  | k :: _ :: rest => k :: pairKeys rest
  | _ => []

/-- The value tokens of the key/value suffix of a token list
(positions 1, 3, 5, … of `tokens[1:]`). -/
def pairVals : List String → List String
  | _ :: v :: rest => v :: pairVals rest
  | _ => []

/-- Specification of the `missing_properties` list of
`validate_required_properties`: the required keys absent from the
property mapping, in schema order. -/
def missingSpec (props : List (String × Value))
    (required : List (String × PyType)) : List String :=
  (required.filter (fun kv => props.lookup kv.1 = none)).map Prod.fst

/-- Specification of the `type_errors` list: for each required key
present with the wrong runtime type, the key with the expected and
actual type tags, in schema order. -/
def mismatchSpec (props : List (String × Value))
    (required : List (String × PyType)) :
    List (String × PyType × PyType) :=
  required.filterMap (fun kv =>
    match props.lookup kv.1 with
    | some v => if v.typeOf ≠ kv.2 then some (kv.1, kv.2, v.typeOf) else none
    | none => none)

/-! Supporting lemmas about the embedded operations. -/

theorem lookup_isSome_iff {β : Type} (l : List (String × β)) (k : String) :
    (l.lookup k).isSome = true ↔ k ∈ l.map Prod.fst := by
  induction l with
  | nil => simp [List.lookup]
  | cons hd tl ih =>
    rcases hd with ⟨k0, v0⟩
    by_cases h : k = k0
    · subst h
      simp [List.lookup]
    · simp only [List.lookup, beq_eq_false_iff_ne.2 h, List.map_cons,
        List.mem_cons]
      rw [ih]
      tauto

theorem lookup_some_mem {β : Type} (l : List (String × β)) (k : String)
    (v : β) : l.lookup k = some v → (k, v) ∈ l := by
  induction l with
  | nil => simp [List.lookup]
  | cons hd tl ih =>
    rcases hd with ⟨k0, v0⟩
    by_cases h : k = k0
    · subst h
      simp [List.lookup]
      intro hv
      left
      exact hv.symm
    · simp only [List.lookup, beq_eq_false_iff_ne.2 h, List.mem_cons]
      intro hv
      right
      exact ih hv

/-- `_translate_key` never yields the string `пол`: the alias table
maps no alias to it, and the raw key `пол` itself is translated to
`gender` rather than returned. -/
theorem translate_key_ne_pol (key : String) : _translate_key key ≠ "пол" := by
  cases h : RUSSIAN_TO_ENGLISH_MAP.lookup (replaceSpaces (pyLower key)) with
  | some v =>
    simp only [_translate_key, h]
    intro hv
    subst hv
    have hall : ∀ p ∈ RUSSIAN_TO_ENGLISH_MAP, p.2 ≠ "пол" := by decide
    exact hall _ (lookup_some_mem _ _ _ h) rfl
  | none =>
    simp only [_translate_key, h]
    intro hv
    rw [hv] at h
    revert h
    decide

/-- Every key in the mapping built by the key/value loop is the
translation of some raw token (when the loop starts from the given
accumulator). -/
theorem processPairs_keys : ∀ (ps : List String)
    (props out : List (String × Value)),
    processPairs ps props = .ok out →
    ∀ k, k ∈ out.map Prod.fst →
      k ∈ props.map Prod.fst ∨ ∃ raw, k = _translate_key raw
  | [], props, out => by
    intro h k hk
    simp [processPairs] at h
    subst h
    exact Or.inl hk
  | [k0], props, out => by
    intro h
    simp [processPairs] at h
  | k0 :: v0 :: rest, props, out => by
    intro h k hk
    simp only [processPairs] at h
    split at h
    · exact absurd h (by simp)
    · split at h
      · exact absurd h (by simp)
      · rcases processPairs_keys rest _ _ h k hk with hin | him
        · simp only [List.map_append, List.mem_append] at hin
          rcases hin with hin | hin
          · exact Or.inl hin
          · simp at hin
            exact Or.inr ⟨k0, hin⟩
        · exact Or.inr him

/-- Tokenization fails only with the empty-input or unclosed-quotes
errors. -/
theorem tokenizeAux_error : ∀ (cs cur : List Char) (inQ : Bool)
    (acc : List (List Char)) (e : PErr),
    tokenizeAux cs cur inQ acc = .error e → e = .unclosedQuotes
  | [], cur, inQ, acc, e => by
    simp only [tokenizeAux]
    split
    · intro h
      cases h
      rfl
    · intro h
      cases h
  | c :: rest, cur, inQ, acc, e => by
    simp only [tokenizeAux]
    split
    · exact tokenizeAux_error rest _ _ _ e
    · split
      · exact tokenizeAux_error rest _ _ _ e
      · exact tokenizeAux_error rest _ _ _ e

theorem tokenize_error (s : String) (e : PErr)
    (h : _tokenize_string s = .error e) :
    e = .emptyInput ∨ e = .unclosedQuotes := by
  unfold _tokenize_string at h
  split at h
  · cases h
    exact Or.inl rfl
  · split at h
    · cases h
    · rename_i heq
      cases h
      exact Or.inr (tokenizeAux_error _ _ _ _ _ heq)

/-- `parse_value` fails only with a malformed-date or malformed-time
error. -/
theorem parse_value_error (t : String) (e : PErr)
    (h : parse_value t = .error e) :
    (∃ u, e = .badDate u) ∨ ∃ u, e = .badTime u := by
  unfold parse_value at h
  split at h
  · split at h
    · cases h
    · rename_i heq
      unfold _parse_date at heq
      split at heq
      · split at heq
        · cases heq
        · cases heq
          cases h
          exact Or.inl ⟨t, rfl⟩
      · cases heq
        cases h
        exact Or.inl ⟨t, rfl⟩
  · split at h
    · split at h
      · cases h
      · rename_i heq
        unfold _parse_time at heq
        split at heq
        · split at heq
          · cases heq
          · cases heq
            cases h
            exact Or.inr ⟨t, rfl⟩
        · cases heq
          cases h
          exact Or.inr ⟨t, rfl⟩
    · split at h
      · cases h
      · split at h
        · cases h
        · split at h
          · cases h
          · cases h

/-- The key/value loop fails only with an unpaired-key, duplicate, or
value-parse error. -/
theorem processPairs_error : ∀ (ps : List String)
    (props : List (String × Value)) (e : PErr),
    processPairs ps props = .error e →
    (∃ k, e = .unpairedKey k) ∨ (∃ r c, e = .duplicateProp r c) ∨
      (∃ u, e = .badDate u) ∨ ∃ u, e = .badTime u
  | [], props, e => by
    intro h
    simp [processPairs] at h
  | [k0], props, e => by
    intro h
    simp only [processPairs] at h
    cases h
    exact Or.inl ⟨k0, rfl⟩
  | k0 :: v0 :: rest, props, e => by
    intro h
    simp only [processPairs] at h
    split at h
    · cases h
      exact Or.inr (Or.inl ⟨k0, _, rfl⟩)
    · split at h
      · cases h
        rename_i heq
        exact Or.inr (Or.inr (parse_value_error v0 e heq))
      · rcases processPairs_error rest _ e h with h1 | h2
        · exact Or.inl h1
        · exact Or.inr h2

/-- A successful `UserProfile(**props)` call requires the key `пол` to
be present in the properties (it is a dataclass field without a
default). -/
theorem profile_fromKwargs_needs_pol (props : List (String × Value))
    (p : UserProfile) (h : UserProfile.fromKwargs props = .ok p) :
    "пол" ∈ props.map Prod.fst := by
  unfold UserProfile.fromKwargs at h
  split at h
  · cases h
  · rename_i hb
    rw [not_not] at hb
    unfold kwargsBindable at hb
    rw [Bool.and_eq_true] at hb
    have hreq := hb.2
    rw [List.all_eq_true] at hreq
    have hpol := hreq "пол" (by simp)
    rw [lookup_isSome_iff] at hpol
    exact hpol

/-- The factory returns a `UserProfile` record only from the
`UserProfile` dispatch branch, with a successful constructor call. -/
theorem create_object_profile_inv (today : PyDate) (d : Descriptor)
    (p : UserProfile) (h : create_object today d = .ok (.profile p)) :
    UserProfile.fromKwargs d.properties = .ok p := by
  unfold create_object at h
  split at h
  · cases h
  · split at h
    · cases hf : UserProfile.fromKwargs d.properties with
      | ok q =>
        rw [hf] at h
        cases h
        rfl
      | error e =>
        rw [hf] at h
        cases h
    · split at h
      · cases hf : Exercise.fromKwargs d.properties with
        | ok q => rw [hf] at h; cases h
        | error e => rw [hf] at h; cases h
      · split at h
        · cases hf : Workout.fromKwargs today d.properties with
          | ok q => rw [hf] at h; cases h
          | error e => rw [hf] at h; cases h
        · cases hf : NutritionGoal.fromKwargs d.properties with
          | ok q => rw [hf] at h; cases h
          | error e => rw [hf] at h; cases h

/-- Every property key of a successfully parsed descriptor is the
translation of some raw key token. -/
theorem parse_object_keys (s : String) (d : Descriptor)
    (h : parse_object s = .ok d) :
    ∀ k ∈ d.properties.map Prod.fst, ∃ raw, k = _translate_key raw := by
  unfold parse_object at h
  split at h
  · cases h
  · split at h
    · cases h
    · split at h
      · cases h
      · split at h
        · cases h
        · rename_i props hpp
          intro k hk
          have hkeys : k ∈ d.properties.map Prod.fst →
              ∃ raw, k = _translate_key raw := by
            intro hk2
            have hd : d.properties = props := by
              dsimp only at h
              split at h
              · split at h
                · cases h
                · cases h
                  rfl
              · cases h
                rfl
            rw [hd] at hk2
            rcases processPairs_keys _ _ _ hpp k hk2 with hin | him
            · simp at hin
            · exact him
          exact hkeys hk

/-- C1: claims that every well-typed §6 line with a known kind yields a
record with the literal field values, and that the sample line
`UserProfile gender "мужской" age 25 height 180.5 weight 75.0 goal
"похудение" activity_type "средняя"` yields a UserProfile with those
fields, BMI ≈ 23.0 and the normal-weight category.  The code violates
this: the dataclass field is named `пол`, no translated key can ever
be `пол`, so `create_object_from_string` can never construct a
UserProfile at all (first conjunct), and on the sample line it raises
the constructor-level `ParseError` (second conjunct).  The remaining
conjuncts show the intent is the claim: constructing with the actual
field name `пол` succeeds with the literal values, and that record's
BMI is 3000000/130321 ≈ 23.02, in the normal-weight band. -/
theorem userprofile_never_constructed_from_text :
    (∀ (today : PyDate) (s : String) (p : UserProfile),
      create_object_from_string today s ≠ .ok (.profile p)) ∧
    parse_object
      "UserProfile gender \"мужской\" age 25 height 180.5 weight 75.0 goal \"похудение\" activity_type \"средняя\"" =
      .ok ⟨"UserProfile",
        [("gender", .vstr "мужской"), ("age", .vint 25),
         ("height", .vfloat (mkRat 1805 10)), ("weight", .vfloat 75),
         ("goal", .vstr "похудение"), ("activity_type", .vstr "средняя")]⟩ ∧
    (∀ today : PyDate,
      create_object today ⟨"UserProfile",
        [("gender", .vstr "мужской"), ("age", .vint 25),
         ("height", .vfloat (mkRat 1805 10)), ("weight", .vfloat 75),
         ("goal", .vstr "похудение"), ("activity_type", .vstr "средняя")]⟩ =
        .error (.parse (.constructorTypeError "UserProfile"))) ∧
    UserProfile.fromKwargs
      [("пол", .vstr "мужской"), ("age", .vint 25),
       ("height", .vfloat (mkRat 361 2)), ("weight", .vfloat 75),
       ("goal", .vstr "похудение"), ("activity_type", .vstr "средняя")] =
      .ok ⟨"мужской", 25, mkRat 361 2, 75, "похудение", "средняя"⟩ ∧
    (UserProfile.mk "мужской" 25 (mkRat 361 2) 75 "похудение"
      "средняя").calculate_bmi = mkRat 3000000 130321 ∧
    (UserProfile.mk "мужской" 25 (mkRat 361 2) 75 "похудение"
      "средняя").get_bmi_category = "Нормальный вес" := by
  refine ⟨?_, by decide, fun today => rfl, by decide, ?_, ?_⟩
  · intro today s p h
    unfold create_object_from_string at h
    split at h
    · cases h
    · rename_i d hpo
      have hf := create_object_profile_inv today d p h
      have hpol := profile_fromKwargs_needs_pol _ _ hf
      rcases parse_object_keys s d hpo "пол" hpol with ⟨raw, hraw⟩
      exact translate_key_ne_pol raw hraw.symm
  · norm_num [UserProfile.calculate_bmi, Rat.mkRat_eq_divInt,
      Rat.divInt_eq_div]
  · norm_num [UserProfile.get_bmi_category, UserProfile.calculate_bmi,
      Rat.mkRat_eq_divInt, Rat.divInt_eq_div]

/-- C2: claims that out-of-range values in schema-valid lines raise
`ValidationError` only inside the domain constructor, and that the
age-150 sample line reports an age-out-of-range `ValidationError`.
The separation holds in general (first conjunct: a validation error
implies the line parsed fully and the error arose at construction),
but the sample line instead hits the constructor-level `ParseError`
caused by the `пол`/`gender` field-name mismatch (middle conjuncts);
the age invariant itself does fire once the constructor is invoked
with its actual field name `пол` (last conjunct). -/
theorem validation_error_only_from_constructor :
    (∀ (today : PyDate) (s : String) (e : VErr),
      create_object_from_string today s = .error (.validation e) →
      ∃ d, parse_object s = .ok d ∧
        create_object today d = .error (.validation e)) ∧
    parse_object
      "UserProfile gender \"мужской\" age 150 height 180.5 weight 75.0 goal \"похудение\" activity_type \"средняя\"" =
      .ok ⟨"UserProfile",
        [("gender", .vstr "мужской"), ("age", .vint 150),
         ("height", .vfloat (mkRat 1805 10)), ("weight", .vfloat 75),
         ("goal", .vstr "похудение"), ("activity_type", .vstr "средняя")]⟩ ∧
    (∀ today : PyDate,
      create_object today ⟨"UserProfile",
        [("gender", .vstr "мужской"), ("age", .vint 150),
         ("height", .vfloat (mkRat 1805 10)), ("weight", .vfloat 75),
         ("goal", .vstr "похудение"), ("activity_type", .vstr "средняя")]⟩ =
        .error (.parse (.constructorTypeError "UserProfile"))) ∧
    UserProfile.fromKwargs
      [("пол", .vstr "мужской"), ("age", .vint 150),
       ("height", .vfloat (mkRat 1805 10)), ("weight", .vfloat 75),
       ("goal", .vstr "похудение"), ("activity_type", .vstr "средняя")] =
      .error (.validation (.invalidValue "UserProfile" "age")) := by
  refine ⟨?_, by decide, fun today => rfl, by decide⟩
  intro today s e h
  unfold create_object_from_string at h
  cases hp : parse_object s with
  | error pe =>
    rw [hp] at h
    simp at h
  | ok d =>
    rw [hp] at h
    exact ⟨d, rfl, h⟩

/-- C2 witness: the general separation conjunct instantiated on a
line whose Exercise `sets` value is out of range: the pipeline's
validation error indeed arises at the construction step of a fully
parsed line. -/
theorem validation_error_only_from_constructor_witness :
    ∃ d, parse_object "Exercise name \"x\" sets 30 reps_per_set 10 weight 60.0" = .ok d ∧
      create_object ⟨2025, 1, 1⟩ d =
        .error (.validation (.invalidValue "Exercise" "sets")) :=
  validation_error_only_from_constructor.1 ⟨2025, 1, 1⟩
    "Exercise name \"x\" sets 30 reps_per_set 10 weight 60.0"
    (.invalidValue "Exercise" "sets") (by decide)

/-- C3 counterexample: the claim says an unknown key with upper-case
letters or internal spaces comes back normalized (lower-cased,
space-replaced), never in its original spelling.  The translator
actually returns the original spelling on a lookup miss: `Foo Bar`
comes back as `Foo Bar`, not `foo_bar`. -/
theorem translate_key_miss_returns_original_cex :
    _translate_key "Foo Bar" = "Foo Bar" ∧ "Foo Bar" ≠ "foo_bar" := by
  decide

/-- C3 (amended): `_translate_key` lower-cases the key and replaces
spaces with underscores, looks the normalized form up in the static
alias table, and on a lookup miss returns the ORIGINAL key unchanged
(normalization is used only for the lookup); on a hit it returns the
table's canonical key. -/
theorem translate_key_normalizes_for_lookup_only :
    (∀ key : String,
      RUSSIAN_TO_ENGLISH_MAP.lookup (replaceSpaces (pyLower key)) = none →
      _translate_key key = key) ∧
    (∀ (key v : String),
      RUSSIAN_TO_ENGLISH_MAP.lookup (replaceSpaces (pyLower key)) = some v →
      _translate_key key = v) := by
  constructor
  · intro key h
    simp only [_translate_key, h]
  · intro key v h
    simp only [_translate_key, h]

/-- C3 witness: the amended behaviour at concrete keys — the unknown
key `Foo Bar` misses and is returned verbatim, while `ПОЛ` normalizes
to `пол`, hits the table and maps to `gender`. -/
theorem translate_key_normalizes_for_lookup_only_witness :
    _translate_key "Foo Bar" = "Foo Bar" ∧ _translate_key "ПОЛ" = "gender" :=
  ⟨translate_key_normalizes_for_lookup_only.1 "Foo Bar" (by decide),
   translate_key_normalizes_for_lookup_only.2 "ПОЛ" "gender" (by decide)⟩

/-- If a kind has no schema entry it is also not a factory class (the
two tables have the same four keys). -/
theorem no_schema_not_in_classes (t : String)
    (h : required_properties.lookup t = none) :
    OBJECT_CLASSES.contains t = false := by
  by_contra hc
  rw [Bool.not_eq_false] at hc
  have hmem : t ∈ OBJECT_CLASSES := by
    simpa using hc
  fin_cases hmem <;> revert h <;> decide

/-- C4: for a kind token with no `required_properties` entry, schema
validation is skipped — `parse_object` can never report a schema error
for such a kind (second conjunct) — and the pipeline fails only at the
construction step with the unknown-kind `ParseError` (first conjunct);
the sample line `UnknownKind x 1` parses successfully and fails at
construction exactly this way (last conjuncts). -/
theorem unknown_kind_fails_only_at_construction :
    (∀ (today : PyDate) (s : String) (d : Descriptor),
      parse_object s = .ok d →
      required_properties.lookup d.type = none →
      create_object_from_string today s =
        .error (.parse (.unknownKind d.type))) ∧
    (∀ (s ot : String) (M : List String)
      (T : List (String × PyType × PyType)),
      required_properties.lookup ot = none →
      parse_object s ≠ .error (.schemaErr ot M T)) ∧
    parse_object "UnknownKind x 1" =
      .ok ⟨"UnknownKind", [("x", .vint 1)]⟩ ∧
    (∀ today : PyDate,
      create_object today ⟨"UnknownKind", [("x", .vint 1)]⟩ =
        .error (.parse (.unknownKind "UnknownKind"))) := by
  refine ⟨?_, ?_, by decide, fun today => rfl⟩
  · intro today s d hp hnone
    unfold create_object_from_string
    rw [hp]
    unfold create_object
    have hcls := no_schema_not_in_classes d.type hnone
    have hcond : ¬ (OBJECT_CLASSES.contains d.type = true) := by
      rw [hcls]
      simp
    dsimp only
    rw [if_pos hcond]
  · intro s ot M T hnone h
    unfold parse_object at h
    split at h
    · rename_i e he
      cases h
      rcases tokenize_error s _ he with h1 | h1 <;> cases h1
    · split at h
      · cases h
      · split at h
        · cases h
        · split at h
          · rename_i e he
            cases h
            rcases processPairs_error _ _ _ he with ⟨k, hk⟩ | ⟨r, c, hk⟩ |
              ⟨u, hk⟩ | ⟨u, hk⟩ <;> cases hk
          · rename_i props hpp
            dsimp only at h
            split at h
            · rename_i req hreq
              split at h
              · rename_i e he
                cases h
                unfold validate_required_properties at he
                dsimp only at he
                split at he
                · cases he
                · have hinj := he
                  simp only [Except.error.injEq, PErr.schemaErr.injEq] at hinj
                  rcases hinj with ⟨h1, h2, h3⟩
                  rw [h1] at hreq
                  rw [hreq] at hnone
                  cases hnone
              · cases h
            · cases h

/-- C4 witness: the first two conjuncts instantiated on concrete
inputs: `UnknownKind x 1` reaches construction and fails there with
the unknown-kind error, and no schema error for the kind `UnknownKind`
is possible. -/
theorem unknown_kind_fails_only_at_construction_witness :
    create_object_from_string ⟨2025, 1, 1⟩ "UnknownKind x 1" =
      .error (.parse (.unknownKind "UnknownKind")) ∧
    parse_object "UnknownKind x 1" ≠
      .error (.schemaErr "UnknownKind" [] []) :=
  ⟨unknown_kind_fails_only_at_construction.1 ⟨2025, 1, 1⟩ "UnknownKind x 1"
      ⟨"UnknownKind", [("x", .vint 1)]⟩ (by decide) (by decide),
   unknown_kind_fails_only_at_construction.2.1 "UnknownKind x 1"
      "UnknownKind" [] [] (by decide)⟩

theorem lookup_none_iff {β : Type} (l : List (String × β)) (k : String) :
    l.lookup k = none ↔ k ∉ l.map Prod.fst := by
  rw [← lookup_isSome_iff]
  cases h : l.lookup k <;> simp

/-- If the translated keys of the remaining key/value pairs collide —
among themselves or with keys already inserted — and every value token
parses, the loop ends in a duplicate-property error. -/
theorem processPairs_dup : ∀ (ps : List String)
    (props : List (String × Value)),
    (props.map Prod.fst).Nodup →
    (∀ v ∈ pairVals ps, ∃ w, parse_value v = .ok w) →
    ¬ (props.map Prod.fst ++ (pairKeys ps).map _translate_key).Nodup →
    ∃ r c, processPairs ps props = .error (.duplicateProp r c)
  | [], props => by
    intro hnd hv hdup
    exact absurd (by simpa [pairKeys] using hnd) hdup
  | [k], props => by
    intro hnd hv hdup
    exact absurd (by simpa [pairKeys] using hnd) hdup
  | k :: v :: rest, props => by
    intro hnd hv hdup
    simp only [processPairs]
    by_cases hmem : (props.lookup (_translate_key k)).isSome = true
    · rw [if_pos hmem]
      exact ⟨k, _translate_key k, rfl⟩
    · rw [if_neg hmem]
      obtain ⟨w, hw⟩ := hv v (by simp [pairVals])
      rw [hw]
      apply processPairs_dup rest (props ++ [(_translate_key k, w)])
      · rw [lookup_isSome_iff] at hmem
        simp only [List.map_append, List.map_cons, List.map_nil]
        rw [List.nodup_append]
        refine ⟨hnd, List.nodup_singleton _, ?_⟩
        intro a ha hb
        simp at hb
        rw [hb] at ha
        exact hmem ha
      · intro v' hv'
        exact hv v' (by simp [pairVals, hv'])
      · intro hcontra
        apply hdup
        simp only [List.map_append, List.map_cons, List.map_nil,
          List.append_assoc, List.singleton_append] at hcontra ⊢
        simpa [pairKeys] using hcontra

/-- C5: whenever two property keys of a line translate to the same
canonical key — identical raw spellings or two different aliases —
`parse_object` reports a duplicate-property error, provided every
value token is parseable (an unparseable value earlier in the line
would be reported first); detection is on translated keys.  The
concrete conjuncts exercise both collision shapes: the distinct
aliases `вес`/`масса` both resolving to `weight`, and a repeated raw
key `gender`. -/
theorem duplicate_canonical_keys_rejected :
    (∀ (s : String) (tokens : List String),
      _tokenize_string s = .ok tokens →
      ¬ tokens.length < 3 →
      tokens.length % 2 ≠ 0 →
      (∀ v ∈ pairVals (tokens.drop 1), ∃ w, parse_value v = .ok w) →
      ¬ ((pairKeys (tokens.drop 1)).map _translate_key).Nodup →
      ∃ r c, parse_object s = .error (.duplicateProp r c)) ∧
    parse_object "Exercise вес 1.0 масса 2.0" =
      .error (.duplicateProp "масса" "weight") ∧
    parse_object "UserProfile gender \"мужской\" gender \"женский\"" =
      .error (.duplicateProp "gender" "gender") := by
  refine ⟨?_, by decide, by decide⟩
  intro s tokens htok hlen hpar hvals hdup
  obtain ⟨r, c, hd⟩ := processPairs_dup (tokens.drop 1) []
    (by simp) hvals (by simpa using hdup)
  refine ⟨r, c, ?_⟩
  unfold parse_object
  rw [htok]
  dsimp only
  rw [if_neg hlen, if_neg hpar]
  rw [hd]

/-- C5 witness: the universal conjunct instantiated on the line
`Exercise вес 1.0 масса 2.0`, whose two distinct raw keys both
translate to `weight`. -/
theorem duplicate_canonical_keys_rejected_witness :
    ∃ r c, parse_object "Exercise вес 1.0 масса 2.0" =
      .error (.duplicateProp r c) :=
  duplicate_canonical_keys_rejected.1 "Exercise вес 1.0 масса 2.0"
    ["Exercise", "вес", "1.0", "масса", "2.0"] (by decide) (by decide)
    (by decide)
    (by
      intro v hv
      simp [pairVals] at hv
      rcases hv with rfl | rfl
      · exact ⟨.vfloat 1, by decide⟩
      · exact ⟨.vfloat 2, by decide⟩)
    (by decide)

/-- C6: a line that tokenizes to fewer than 3 tokens or to an even
total number of tokens is always rejected — `parse_object` (and hence
`create_object_from_string`) returns the minimum-token or parity
`ParseError` before any key/value processing, regardless of token
content. -/
theorem short_or_even_token_lines_rejected :
    (∀ (today : PyDate) (s : String) (tokens : List String),
      _tokenize_string s = .ok tokens →
      tokens.length < 3 ∨ tokens.length % 2 = 0 →
      parse_object s = .error
        (if tokens.length < 3 then .tooFewTokens else .evenTokenCount) ∧
      create_object_from_string today s = .error (.parse
        (if tokens.length < 3 then .tooFewTokens else .evenTokenCount))) ∧
    parse_object "UserProfile gender" = .error .tooFewTokens ∧
    parse_object "UserProfile gender \"мужской\" age" =
      .error .evenTokenCount := by
  refine ⟨?_, by decide, by decide⟩
  intro today s tokens htok hbad
  have hp : parse_object s = .error
      (if tokens.length < 3 then .tooFewTokens else .evenTokenCount) := by
    unfold parse_object
    rw [htok]
    dsimp only
    by_cases h3 : tokens.length < 3
    · rw [if_pos h3, if_pos h3]
    · rw [if_neg h3, if_neg h3]
      rcases hbad with hb | hb
      · exact absurd hb h3
      · rw [if_pos hb]
  refine ⟨hp, ?_⟩
  unfold create_object_from_string
  rw [hp]

/-- C6 witness: the universal conjunct on the 2-token line
`UserProfile gender` (too few tokens; an even count). -/
theorem short_or_even_token_lines_rejected_witness :
    parse_object "UserProfile gender" = .error
      (if (["UserProfile", "gender"] : List String).length < 3
       then PErr.tooFewTokens else PErr.evenTokenCount) ∧
    create_object_from_string ⟨2025, 1, 1⟩ "UserProfile gender" =
      .error (.parse
        (if (["UserProfile", "gender"] : List String).length < 3
         then PErr.tooFewTokens else PErr.evenTokenCount)) :=
  short_or_even_token_lines_rejected.1 ⟨2025, 1, 1⟩ "UserProfile gender"
    ["UserProfile", "gender"] (by decide) (Or.inl (by decide))

theorem DATE_PATTERN_length (t : String) (h : DATE_PATTERN t = true) :
    t.toList.length = 10 := by
  unfold DATE_PATTERN at h
  split at h
  · rename_i heq
    rw [heq]
    rfl
  · cases h

theorem TIME_PATTERN_length (t : String) (h : TIME_PATTERN t = true) :
    t.toList.length = 5 := by
  unfold TIME_PATTERN at h
  split at h
  · rename_i heq
    rw [heq]
    rfl
  · cases h

/-- A token cannot match both the date and the time pattern (10
versus 5 characters). -/
theorem time_not_date (t : String) (h : TIME_PATTERN t = true) :
    DATE_PATTERN t = false := by
  by_contra hd
  rw [Bool.not_eq_false] at hd
  have h10 := DATE_PATTERN_length t hd
  have h5 := TIME_PATTERN_length t h
  rw [h10] at h5
  cases h5

/-- C7: value inference applies its patterns in fixed order with first
match winning and is total on the remaining tokens:
1. a date-pattern token is always handed to the date parser (so it is
   never classified as a float), with invalid calendar values rejected
   (`2024.13.01`, `2024.01.45`);
2. a time-pattern token is always handed to the time parser, and every
   time value produced satisfies hour ≤ 23 and minute ≤ 59;
3. a token matching none of the five patterns is returned as bare
   text. -/
theorem value_inference_order_and_totality :
    (∀ t : String, DATE_PATTERN t = true →
      parse_value t = (_parse_date t).map Value.vdate) ∧
    (∀ (t : String) (q : ℚ), DATE_PATTERN t = true →
      parse_value t ≠ .ok (.vfloat q)) ∧
    parse_value "2024.13.01" = .error (.badDate "2024.13.01") ∧
    parse_value "2024.01.45" = .error (.badDate "2024.01.45") ∧
    (∀ t : String, TIME_PATTERN t = true →
      parse_value t = (_parse_time t).map (fun p => Value.vtime p.1 p.2)) ∧
    (∀ (t : String) (q : ℚ), TIME_PATTERN t = true →
      parse_value t ≠ .ok (.vfloat q)) ∧
    (∀ (t : String) (hh mm : Nat), parse_value t = .ok (.vtime hh mm) →
      hh ≤ 23 ∧ mm ≤ 59) ∧
    (∀ t : String, DATE_PATTERN t = false → TIME_PATTERN t = false →
      _is_quoted_string t = false → INT_PATTERN t = false →
      FLOAT_PATTERN t = false → parse_value t = .ok (.vstr t)) := by
  have hdate : ∀ t : String, DATE_PATTERN t = true →
      parse_value t = (_parse_date t).map Value.vdate := by
    intro t h
    unfold parse_value
    rw [if_pos h]
    cases hd : _parse_date t <;> simp [hd, Except.map]
  have htime : ∀ t : String, TIME_PATTERN t = true →
      parse_value t = (_parse_time t).map (fun p => Value.vtime p.1 p.2) := by
    intro t h
    unfold parse_value
    rw [if_neg (by simp [time_not_date t h]), if_pos h]
    cases ht : _parse_time t with
    | ok p =>
      cases p
      simp [ht, Except.map]
    | error e => simp [ht, Except.map]
  refine ⟨hdate, ?_, by decide, by decide, htime, ?_, ?_, ?_⟩
  · intro t q h hc
    rw [hdate t h] at hc
    cases hd : _parse_date t <;> rw [hd] at hc <;> simp [Except.map] at hc
  · intro t q h hc
    rw [htime t h] at hc
    cases ht : _parse_time t <;> rw [ht] at hc <;> simp [Except.map] at hc
  · intro t hh mm h
    by_cases hd : DATE_PATTERN t = true
    · rw [hdate t hd] at h
      cases hdd : _parse_date t <;> rw [hdd] at h <;> simp [Except.map] at h
    · by_cases htt : TIME_PATTERN t = true
      · rw [htime t htt] at h
        cases ht : _parse_time t with
        | error e =>
          rw [ht] at h
          simp [Except.map] at h
        | ok p =>
          rw [ht] at h
          rcases p with ⟨a, b⟩
          simp only [Except.map, Except.ok.injEq, Value.vtime.injEq] at h
          rcases h with ⟨ha, hb⟩
          subst ha
          subst hb
          unfold _parse_time at ht
          split at ht
          · split at ht
            · rename_i hcond
              cases ht
              simpa using hcond
            · cases ht
          · cases ht
      · unfold parse_value at h
        rw [if_neg hd, if_neg htt] at h
        split at h
        · cases h
        · split at h
          · cases h
          · split at h
            · cases h
            · cases h
  · intro t h1 h2 h3 h4 h5
    unfold parse_value
    simp [h1, h2, h3, h4, h5]

/-- C7 witness: each quantified conjunct instantiated: the date token
`2025.12.15` goes to the date parser and is not a float; the time
token `14:30` goes to the time parser, is not a float, and its parsed
hour/minute are in range; the bare token `мужской` matches no pattern
and is returned as text. -/
theorem value_inference_order_and_totality_witness :
    parse_value "2025.12.15" = (_parse_date "2025.12.15").map Value.vdate ∧
    parse_value "2025.12.15" ≠ .ok (.vfloat 1) ∧
    parse_value "14:30" =
      (_parse_time "14:30").map (fun p => Value.vtime p.1 p.2) ∧
    parse_value "14:30" ≠ .ok (.vfloat 1) ∧
    (14 ≤ 23 ∧ 30 ≤ 59) ∧
    parse_value "мужской" = .ok (.vstr "мужской") :=
  ⟨value_inference_order_and_totality.1 "2025.12.15" (by decide),
   value_inference_order_and_totality.2.1 "2025.12.15" 1 (by decide),
   value_inference_order_and_totality.2.2.2.2.1 "14:30" (by decide),
   value_inference_order_and_totality.2.2.2.2.2.1 "14:30" 1 (by decide),
   value_inference_order_and_totality.2.2.2.2.2.2.1 "14:30" 14 30 (by decide),
   value_inference_order_and_totality.2.2.2.2.2.2.2 "мужской" (by decide)
     (by decide) (by decide) (by decide) (by decide)⟩

/-- The accumulator fold of `validate_required_properties` computes
exactly the filtered missing-key and type-mismatch lists. -/
theorem scanRequired_loop (props : List (String × Value)) :
    ∀ (required : List (String × PyType)) (acc : List String ×
      List (String × PyType × PyType)),
    required.foldl
      (fun acc kv =>
        match props.lookup kv.1 with
        | none => (acc.1 ++ [kv.1], acc.2)
        | some v =>
          if v.typeOf ≠ kv.2 then
            (acc.1, acc.2 ++ [(kv.1, kv.2, v.typeOf)])
          else acc)
      acc =
      (acc.1 ++ missingSpec props required,
       acc.2 ++ mismatchSpec props required)
  | [], acc => by
    simp [missingSpec, mismatchSpec]
  | kv :: rest, acc => by
    rw [List.foldl_cons, scanRequired_loop props rest]
    cases hl : props.lookup kv.1 with
    | none =>
      simp [missingSpec, mismatchSpec, hl, List.append_assoc]
    | some v =>
      by_cases hty : v.typeOf ≠ kv.2
      · simp [missingSpec, mismatchSpec, hl, hty, List.append_assoc]
      · simp [missingSpec, mismatchSpec, hl, hty]

/-- C8: schema validation scans every required (key, type) pair,
collecting the missing keys and the type mismatches (with expected and
actual type tags) over the whole schema; it succeeds exactly when both
lists are empty, and otherwise raises the single batched error
carrying every missing key and every mismatch found. -/
theorem schema_validation_batches_all_problems :
    ∀ (object_type : String) (props : List (String × Value))
      (required : List (String × PyType)),
    validate_required_properties object_type props required =
      (if missingSpec props required = [] ∧ mismatchSpec props required = []
       then .ok ()
       else .error (.schemaErr object_type (missingSpec props required)
         (mismatchSpec props required))) ∧
    (validate_required_properties object_type props required = .ok () ↔
      missingSpec props required = [] ∧ mismatchSpec props required = []) := by
  intro object_type props required
  have hscan : scanRequired props required =
      (missingSpec props required, mismatchSpec props required) := by
    unfold scanRequired
    rw [scanRequired_loop props required ([], [])]
    simp
  constructor
  · unfold validate_required_properties
    rw [hscan]
  · unfold validate_required_properties
    rw [hscan]
    by_cases hc : missingSpec props required = [] ∧
        mismatchSpec props required = []
    · simp [hc]
    · simp [hc]

/-- C9: the sample line `Exercise name "Приседания" sets 4
reps_per_set 10 weight 60.0` constructs an Exercise with exactly those
field values and empty notes; its training volume is 2400, and in
general `calculate_volume` is the product sets × reps_per_set ×
weight. -/
theorem exercise_example_and_volume :
    parse_object "Exercise name \"Приседания\" sets 4 reps_per_set 10 weight 60.0" =
      .ok ⟨"Exercise",
        [("name", .vstr "Приседания"), ("sets", .vint 4),
         ("reps_per_set", .vint 10), ("weight", .vfloat 60)]⟩ ∧
    (∀ today : PyDate,
      create_object today ⟨"Exercise",
        [("name", .vstr "Приседания"), ("sets", .vint 4),
         ("reps_per_set", .vint 10), ("weight", .vfloat 60)]⟩ =
        .ok (.exercise ⟨"Приседания", 4, 10, 60, ""⟩)) ∧
    Exercise.calculate_volume ⟨"Приседания", 4, 10, 60, ""⟩ = 2400 ∧
    (∀ e : Exercise, e.calculate_volume =
      (e.sets : ℚ) * (e.reps_per_set : ℚ) * e.weight) := by
  refine ⟨by decide, fun today => rfl, ?_, fun e => rfl⟩
  norm_num [Exercise.calculate_volume]

/-- The key/value loop can hit its unpaired-key branch only when the
remaining suffix has odd length; stepping two tokens at a time from an
even-length suffix never reaches a singleton. -/
theorem processPairs_no_unpaired : ∀ (ps : List String)
    (props : List (String × Value)) (k : String),
    ps.length % 2 = 0 →
    processPairs ps props ≠ .error (.unpairedKey k)
  | [], props, k => by
    intro _ h
    simp [processPairs] at h
  | [k0], props, k => by
    intro hpar
    simp at hpar
  | k0 :: v0 :: rest, props, k => by
    intro hpar h
    simp only [processPairs] at h
    split at h
    · cases h
    · split at h
      · rename_i e heq
        cases h
        rcases parse_value_error _ _ heq with ⟨u, hu⟩ | ⟨u, hu⟩ <;> cases hu
      · refine processPairs_no_unpaired rest _ k ?_ h
        simp only [List.length_cons] at hpar
        omega

/-- C10: the unpaired-key raise site inside the key/value loop is dead
code — no input string can make `parse_object` return the unpaired-key
error (first conjunct), because once the token count is odd the loop
always finds a value token after each key, i.e. the loop never fails
this way from any even-length key/value suffix (second conjunct). -/
theorem unpaired_key_error_unreachable :
    (∀ (s k : String), parse_object s ≠ .error (.unpairedKey k)) ∧
    (∀ (ps : List String) (props : List (String × Value)) (k : String),
      ps.length % 2 = 0 →
      processPairs ps props ≠ .error (.unpairedKey k)) := by
  refine ⟨?_, processPairs_no_unpaired⟩
  intro s k h
  unfold parse_object at h
  split at h
  · rename_i e he
    cases h
    rcases tokenize_error s _ he with h1 | h1 <;> cases h1
  · rename_i tokens htok
    split at h
    · cases h
    · split at h
      · cases h
      · rename_i h3 hpar
        split at h
        · rename_i e heq
          cases h
          refine processPairs_no_unpaired (tokens.drop 1) [] k ?_ heq
          rw [List.length_drop]
          omega
        · rename_i props hpp
          dsimp only at h
          split at h
          · split at h
            · rename_i e he
              cases h
              unfold validate_required_properties at he
              dsimp only at he
              split at he
              · cases he
              · simp at he
            · cases h
          · cases h

/-- C10 witness: the loop-level conjunct instantiated on the concrete
even-length suffix `["a", "1"]`. -/
theorem unpaired_key_error_unreachable_witness :
    processPairs ["a", "1"] [] ≠ .error (.unpairedKey "a") :=
  unpaired_key_error_unreachable.2 ["a", "1"] [] "a" (by decide)

/-- C5 counterexample: in `Exercise дата 9999.99.99 вес 1.0 масса 2.0`
the keys `вес` and `масса` both translate to `weight`, yet
`parse_object` does not report a duplicate-property error: the
malformed date value earlier in the line is reported first. -/
theorem duplicate_not_reported_after_bad_value_cex :
    ¬ ((pairKeys ((["Exercise", "дата", "9999.99.99", "вес", "1.0",
        "масса", "2.0"] : List String).drop 1)).map _translate_key).Nodup ∧
    _tokenize_string "Exercise дата 9999.99.99 вес 1.0 масса 2.0" =
      .ok ["Exercise", "дата", "9999.99.99", "вес", "1.0", "масса", "2.0"] ∧
    parse_object "Exercise дата 9999.99.99 вес 1.0 масса 2.0" =
      .error (.badDate "9999.99.99") ∧
    (Except.error (PErr.badDate "9999.99.99") :
        Except PErr Descriptor) ≠ .error (.duplicateProp "масса" "weight") := by
  decide
